import Mathlib

/-!
Verification of the behavior-analysis engine of the agent-evaluation
framework: the timeline normalizer (`TimelineBuilder.buildTimeline`), the
task-type classifier (`detectTaskType`, `getEvaluatorApplicability`), the
declared-behavior evaluator (`BehaviorEvaluator.evaluate`) and the
evaluation runner (`EvaluatorRunner.runEvaluators` / `aggregateResults`).

The definitions below are shallow embeddings of the TypeScript sources:
  - `aggregateResults`, `runEvaluators`, `runAll`  from EvaluatorRunner
  - `buildTimeline`, `createMessageEvent`, `createPartEvent` from TimelineBuilder
  - `detectTaskType`, `getEvaluatorApplicability` from task-type-detector.ts
  - `behaviorEvaluate` from behavior-evaluator.ts
JavaScript numbers holding epoch-millisecond timestamps are modelled as
`Int`; scores and counts as `Nat`; `Array.prototype.sort` with the
comparator `(a, b) => a.timestamp - b.timestamp` is modelled as the stable
`List.mergeSort` (ECMAScript sorts are stable, and a stable sort by a
total preorder is unique).
-/

/-- Severity of a violation: the closed union `'error' | 'warning' | 'info'`. -/
inductive Severity where
  | error
  | warning
  | info
deriving DecidableEq, Repr

/-- Violation record. The TS field `type` is rendered `vtype`; the loosely
typed `evidence : any` payload is modelled as a list of key/value pairs
mirroring the object literals the evaluators construct. -/
structure Violation where
  vtype : String
  severity : Severity
  message : String
  timestamp : Int
  evidence : List (String × String)
deriving DecidableEq, Repr

/-- Evidence record attached to checks and results. -/
structure Evidence where
  etype : String
  description : String
  data : List (String × String)
  timestamp : Option Int := none
deriving DecidableEq, Repr

/-- One atomic check inside an evaluator. -/
structure Check where
  name : String
  passed : Bool
  weight : Nat
  evidence : List Evidence := []
deriving DecidableEq, Repr

/-- Result metadata; only the fields consumed by the claims are modelled
(`skipped`, the skip `reason`, and the behavior evaluator's summary). -/
structure EvalMetadata where
  skipped : Option Bool := none
  reason : Option String := none
  toolsUsed : List String := []
  toolCallCount : Nat := 0
deriving DecidableEq, Repr

/-- Result of one evaluator run (`EvaluationResult` in types/index.ts). -/
structure EvaluationResult where
  evaluator : String
  passed : Bool
  score : Nat
  violations : List Violation
  evidence : List Evidence
  metadata : EvalMetadata := {}
deriving DecidableEq, Repr

/-- Session metadata (`SessionInfo` in types/index.ts). -/
structure SessionInfo where
  id : String
  version : String
  title : String
  timeCreated : Int
  timeUpdated : Int
deriving DecidableEq, Repr

/-- Per-severity violation counts inside an `AggregatedResult`. -/
structure SeverityCounts where
  error : Nat
  warning : Nat
  info : Nat
deriving DecidableEq, Repr

/-- Session-level aggregate produced by the runner. -/
structure AggregatedResult where
  sessionId : String
  sessionInfo : SessionInfo
  timestamp : Int
  evaluatorResults : List EvaluationResult
  overallPassed : Bool
  overallScore : Nat
  totalViolations : Nat
  violationsBySeverity : SeverityCounts
  allViolations : List Violation
  allEvidence : List Evidence
deriving DecidableEq, Repr

/-- JavaScript `Math.round (num / den)` for nonnegative integers: rounding
half away from zero, i.e. `⌊num / den + 1 / 2⌋`. -/
def jsRound (num den : Nat) : Nat :=
  (2 * num + den) / (2 * den)

/-- Embedding of `EvaluatorRunner.aggregateResults`. `now` stands for the
`Date.now()` call that stamps the aggregate. -/
def aggregateResults (sessionId : String) (sessionInfo : SessionInfo)
    (evaluatorResults : List EvaluationResult) (now : Int) : AggregatedResult :=
  let allViolations := evaluatorResults.flatMap (fun r => r.violations)
  let violationsBySeverity : SeverityCounts :=
    { error := (allViolations.filter (fun v => v.severity = Severity.error)).length
      warning := (allViolations.filter (fun v => v.severity = Severity.warning)).length
      info := (allViolations.filter (fun v => v.severity = Severity.info)).length }
  let allEvidence := evaluatorResults.flatMap (fun r => r.evidence)
  let totalWeight := evaluatorResults.length
  let weightedScore := evaluatorResults.foldl (fun sum r => sum + r.score) 0
  let overallScore := if totalWeight > 0 then jsRound weightedScore totalWeight else 100
  let overallPassed := evaluatorResults.all (fun r => r.passed)
  { sessionId := sessionId
    sessionInfo := sessionInfo
    timestamp := now
    evaluatorResults := evaluatorResults
    overallPassed := overallPassed
    overallScore := overallScore
    totalViolations := allViolations.length
    violationsBySeverity := violationsBySeverity
    allViolations := allViolations
    allEvidence := allEvidence }

lemma foldl_add_score (results : List EvaluationResult) (a : Nat) :
    results.foldl (fun sum r => sum + r.score) a
      = a + (results.map (fun r => r.score)).sum := by
  induction results generalizing a with
  | nil => simp
  | cons r rs ih => simp [ih, Nat.add_assoc]

/-- `jsRound` agrees with rounding the rational quotient to the nearest
integer (halves up, as JavaScript `Math.round` does for nonnegative input). -/
lemma jsRound_eq_round (num den : Nat) (hden : 0 < den) :
    (jsRound num den : ℤ) = round ((num : ℚ) / (den : ℚ)) := by
  have hden' : (den : ℚ) ≠ 0 := by positivity
  have hq : (num : ℚ) / (den : ℚ) + 1 / 2
      = ((2 * num + den : Nat) : ℚ) / ((2 * den : Nat) : ℚ) := by
    push_cast
    field_simp
    ring
  rw [round_eq, hq]
  have hnonneg : (0 : ℚ) ≤ ((2 * num + den : Nat) : ℚ) / ((2 * den : Nat) : ℚ) := by
    positivity
  rw [← Int.natCast_floor_eq_floor hnonneg, Nat.floor_div_eq_div]
  simp [jsRound]

/-- C1. For every completed evaluation run, `overallPassed` is the logical
AND of all evaluator `passed` flags, and `overallScore` is the arithmetic
mean of the evaluator scores rounded to the nearest integer. (A completed
run has at least one evaluator result: `runEvaluators` throws on an empty
selection.) -/
theorem aggregateResults_overall_correct (sessionId : String) (sessionInfo : SessionInfo)
    (results : List EvaluationResult) (now : Int) (hne : results ≠ []) :
    ((aggregateResults sessionId sessionInfo results now).overallPassed = true
      ↔ ∀ r ∈ results, r.passed = true)
    ∧ ((aggregateResults sessionId sessionInfo results now).overallScore : ℤ)
      = round (((results.map (fun r => (r.score : ℚ))).sum) / (results.length : ℚ)) := by
  constructor
  · simp [aggregateResults, List.all_eq_true]
  · have hlen : 0 < results.length := List.length_pos.mpr hne
    have hfold : results.foldl (fun sum r => sum + r.score) 0
        = (results.map (fun r => r.score)).sum := by
      simpa using foldl_add_score results 0
    simp only [aggregateResults, hlen, if_pos, hfold]
    rw [jsRound_eq_round _ _ hlen]
    congr 1
    rw [Nat.cast_list_sum, List.map_map]
    rfl

/-- Closed witness for `aggregateResults_overall_correct` at a concrete
two-evaluator run. -/
theorem aggregateResults_overall_correct_witness :
    let r1 : EvaluationResult :=
      { evaluator := "approval-gate", passed := true, score := 80, violations := [], evidence := [] }
    let r2 : EvaluationResult :=
      { evaluator := "tool-usage", passed := true, score := 85, violations := [], evidence := [] }
    let si : SessionInfo :=
      { id := "s", version := "1.0", title := "t", timeCreated := 0, timeUpdated := 0 }
    ((aggregateResults "s" si [r1, r2] 0).overallPassed = true
      ↔ ∀ r ∈ [r1, r2], r.passed = true)
    ∧ ((aggregateResults "s" si [r1, r2] 0).overallScore : ℤ)
      = round ((([r1, r2].map (fun r => (r.score : ℚ))).sum) / (([r1, r2] : List EvaluationResult).length : ℚ)) := by
  intro r1 r2 si
  exact aggregateResults_overall_correct "s" si [r1, r2] 0 (by simp)

/-- C2. For every evaluation run, `totalViolations` is the sum of the
violation-list lengths across evaluator results, and each per-severity
count equals the number of violations of that severity in `allViolations`. -/
theorem aggregateResults_violation_counts (sessionId : String) (sessionInfo : SessionInfo)
    (results : List EvaluationResult) (now : Int) :
    (aggregateResults sessionId sessionInfo results now).totalViolations
      = (results.map (fun r => r.violations.length)).sum
    ∧ ∀ s : Severity,
        (match s with
          | Severity.error => (aggregateResults sessionId sessionInfo results now).violationsBySeverity.error
          | Severity.warning => (aggregateResults sessionId sessionInfo results now).violationsBySeverity.warning
          | Severity.info => (aggregateResults sessionId sessionInfo results now).violationsBySeverity.info)
        = ((aggregateResults sessionId sessionInfo results now).allViolations.filter
            (fun v => v.severity = s)).length := by
  refine ⟨?_, ?_⟩
  · simp only [aggregateResults, List.length_flatMap]
    exact congrArg List.sum (List.map_congr_left (fun r _ => rfl))
  · intro s
    cases s <;> simp [aggregateResults]

/-- Message role: `'user' | 'assistant'`. -/
inductive Role where
  | user
  | assistant
deriving DecidableEq, Repr

/-- Discriminant of a transcript part. -/
inductive PartType where
  | text
  | tool
  | patch
  | reasoning
  | stepStart
  | stepFinish
  | file
deriving DecidableEq, Repr

/-- Transcript part. `timeCreated` models `part.time?.created` (the whole
`time` object is optional in the source). The remaining optional fields are
the properties the evaluators read off the loosely typed part object:
`tool`, `state.tool`, `state.input.filePath`, `input.filePath`,
`input.path`, and `text`. -/
structure MsgPart where
  id : String
  messageID : String
  ptype : PartType
  timeCreated : Option Int := none
  tool : Option String := none
  stateTool : Option String := none
  stateInputFilePath : Option String := none
  inputFilePath : Option String := none
  inputPath : Option String := none
  text : Option String := none
deriving DecidableEq, Repr

/-- Message metadata (`Message` in types/index.ts); `mode` is the agent name. -/
structure Message where
  id : String
  role : Role
  mode : Option String := none
  modelID : Option String := none
  timeCreated : Int
deriving DecidableEq, Repr

/-- A message together with its parts, as the session reader returns it. -/
structure MessageWithParts where
  info : Message
  parts : List MsgPart
deriving DecidableEq, Repr

/-- Timeline event discriminant. -/
inductive EventType where
  | user_message
  | assistant_message
  | tool_call
  | patch
  | reasoning
  | text
deriving DecidableEq, Repr

/-- Payload of a timeline event (`data : any` in the source): a message
event carries the message, its parts, the extracted text and the tool
names; a part event carries the part itself. -/
inductive EventData where
  | message (message : Message) (parts : List MsgPart) (text : String) (tools : List String)
  | part (p : MsgPart)
deriving DecidableEq, Repr

/-- Normalized timeline event (`TimelineEvent` in types/index.ts). -/
structure TimelineEvent where
  timestamp : Int
  etype : EventType
  agent : Option String := none
  model : Option String := none
  messageId : Option String := none
  partId : Option String := none
  data : EventData
deriving DecidableEq, Repr

/-- Modelled from the spec: `MessageParser.extractTextFromParts`
(collector/message-parser.ts is not under src/). Per the spec the message
event carries the message's full text; we concatenate its text parts. -/
def extractTextFromParts (parts : List MsgPart) : String :=
  String.intercalate "\n"
    ((parts.filter (fun p => p.ptype = PartType.text)).filterMap (fun p => p.text))

/-- Modelled from the spec: `MessageParser.getToolsUsed`
(collector/message-parser.ts is not under src/). Per the spec the message
event carries the set of tool names referenced by the message's parts. -/
def getToolsUsedFromParts (parts : List MsgPart) : List String :=
  (parts.filter (fun p => p.ptype = PartType.tool)).filterMap (fun p => p.tool)

/-- Embedding of `TimelineBuilder.createMessageEvent`. The agent and model
come from the message (`message.mode` / `message.modelID`, which is what
the parser getters read). -/
def createMessageEvent (message : Message) (parts : List MsgPart) : TimelineEvent :=
  { timestamp := message.timeCreated
    etype := if message.role = Role.user then EventType.user_message else EventType.assistant_message
    agent := message.mode
    model := message.modelID
    messageId := some message.id
    partId := none
    data := EventData.message message parts (extractTextFromParts parts) (getToolsUsedFromParts parts) }

/-- Embedding of `TimelineBuilder.createPartEvent`. The timestamp is
`part.time?.created || message.time.created`; JavaScript `||` falls back on
the falsy value `0`, hence the explicit zero test. Unrecognized part types
(`step-start`, `step-finish`, `file`) yield `none`. -/
def createPartEvent (p : MsgPart) (message : Message) : Option TimelineEvent :=
  let timestamp : Int :=
    match p.timeCreated with
    | some t => if t = 0 then message.timeCreated else t
    | none => message.timeCreated
  let mk : EventType → TimelineEvent := fun etype =>
    { timestamp := timestamp
      etype := etype
      agent := message.mode
      model := message.modelID
      messageId := some message.id
      partId := some p.id
      data := EventData.part p }
  match p.ptype with
  | PartType.tool => some (mk EventType.tool_call)
  | PartType.patch => some (mk EventType.patch)
  | PartType.reasoning => some (mk EventType.reasoning)
  | PartType.text => some (mk EventType.text)
  | _ => none

/-- Comparator of the final sort: `(a, b) => a.timestamp - b.timestamp`
keeps `a` before `b` exactly when the difference is nonpositive. -/
def timelineLE (a b : TimelineEvent) : Bool :=
  a.timestamp ≤ b.timestamp

/-- Unsorted event list of `TimelineBuilder.buildTimeline`: per message,
the message event is pushed first, then the part events in declaration
order. -/
def timelineEventsOf (msgs : List MessageWithParts) : List TimelineEvent :=
  msgs.flatMap (fun mw =>
    createMessageEvent mw.info mw.parts
      :: mw.parts.filterMap (fun p => createPartEvent p mw.info))

/-- Embedding of `TimelineBuilder.buildTimeline` (pure core, after the
messages-with-parts have been fetched): build the events, then
`events.sort((a, b) => a.timestamp - b.timestamp)` — a stable sort by
timestamp. -/
def buildTimeline (msgs : List MessageWithParts) : List TimelineEvent :=
  (timelineEventsOf msgs).mergeSort timelineLE

lemma timelineLE_trans (a b c : TimelineEvent) :
    timelineLE a b → timelineLE b c → timelineLE a c := by
  simp only [timelineLE, decide_eq_true_eq]
  omega

lemma timelineLE_total (a b : TimelineEvent) :
    timelineLE a b || timelineLE b a := by
  simp only [timelineLE]
  by_cases h : a.timestamp ≤ b.timestamp <;> simp [h] <;> omega

/-- Message-level events are the `user_message` / `assistant_message` events. -/
def isMessageEvent (e : TimelineEvent) : Bool :=
  e.etype == EventType.user_message || e.etype == EventType.assistant_message

/-- Part-level events are the `tool_call` / `patch` / `reasoning` / `text` events. -/
def isPartEvent (e : TimelineEvent) : Bool :=
  e.etype == EventType.tool_call || e.etype == EventType.patch
    || e.etype == EventType.reasoning || e.etype == EventType.text

/-- Part types for which `createPartEvent` emits an event. -/
def isRecognizedPart (p : MsgPart) : Bool :=
  p.ptype == PartType.tool || p.ptype == PartType.patch
    || p.ptype == PartType.reasoning || p.ptype == PartType.text

lemma isMessageEvent_createMessageEvent (m : Message) (parts : List MsgPart) :
    isMessageEvent (createMessageEvent m parts) = true := by
  cases hr : m.role <;> simp [createMessageEvent, isMessageEvent, hr]

lemma createPartEvent_etype (p : MsgPart) (m : Message) (ev : TimelineEvent)
    (h : createPartEvent p m = some ev) :
    isPartEvent ev = true ∧ isMessageEvent ev = false := by
  cases hp : p.ptype <;>
    simp [createPartEvent, hp] at h <;>
    simp [← h, isPartEvent, isMessageEvent]

lemma createPartEvent_isSome (p : MsgPart) (m : Message) :
    (createPartEvent p m).isSome = isRecognizedPart p := by
  cases hp : p.ptype <;> simp [createPartEvent, hp, isRecognizedPart]

lemma partEvents_length (m : Message) (parts : List MsgPart) :
    (parts.filterMap (fun p => createPartEvent p m)).length
      = (parts.filter isRecognizedPart).length := by
  induction parts with
  | nil => rfl
  | cons p rest ih =>
    by_cases hrec : isRecognizedPart p = true
    · have hsome : (createPartEvent p m).isSome = true := by
        rw [createPartEvent_isSome, hrec]
      obtain ⟨ev, hev⟩ := Option.isSome_iff_exists.mp hsome
      simp [List.filterMap_cons, List.filter_cons, hev, hrec, ih]
    · have hfalse : isRecognizedPart p = false := by simpa using hrec
      have hnone : createPartEvent p m = none := by
        have h2 := createPartEvent_isSome p m
        rw [hfalse] at h2
        exact Option.not_isSome_iff_eq_none.mp (by simp [h2])
      simp [List.filterMap_cons, List.filter_cons, hnone, hfalse, ih]

lemma timelineEventsOf_message_count (msgs : List MessageWithParts) :
    ((timelineEventsOf msgs).filter isMessageEvent).length = msgs.length := by
  induction msgs with
  | nil => rfl
  | cons mw rest ih =>
    have hparts : (mw.parts.filterMap (fun p => createPartEvent p mw.info)).filter
        isMessageEvent = [] := by
      rw [List.filter_eq_nil_iff]
      intro ev hev
      obtain ⟨p, _, hp⟩ := List.mem_filterMap.mp hev
      simp [(createPartEvent_etype p mw.info ev hp).2]
    simp [timelineEventsOf, List.flatMap_cons, List.filter_append, List.filter_cons,
      isMessageEvent_createMessageEvent, hparts] at *
    simpa [timelineEventsOf] using ih

lemma timelineEventsOf_part_count (msgs : List MessageWithParts) :
    ((timelineEventsOf msgs).filter isPartEvent).length
      = ((msgs.flatMap (fun mw => mw.parts)).filter isRecognizedPart).length := by
  induction msgs with
  | nil => rfl
  | cons mw rest ih =>
    have hmsg : isPartEvent (createMessageEvent mw.info mw.parts) = false := by
      cases hr : mw.info.role <;> simp [createMessageEvent, isPartEvent, hr]
    have hparts : (mw.parts.filterMap (fun p => createPartEvent p mw.info)).filter
        isPartEvent = mw.parts.filterMap (fun p => createPartEvent p mw.info) := by
      rw [List.filter_eq_self]
      intro ev hev
      obtain ⟨p, _, hp⟩ := List.mem_filterMap.mp hev
      exact (createPartEvent_etype p mw.info ev hp).1
    rw [timelineEventsOf, List.flatMap_cons, List.filter_append,
      List.filter_cons_of_neg (by simp [hmsg]), hparts, List.length_append,
      partEvents_length, List.flatMap_cons, List.filter_append, List.length_append]
    simp only [timelineEventsOf] at ih
    rw [ih]

lemma block_sublist_timelineEventsOf (msgs : List MessageWithParts)
    (mw : MessageWithParts) (hmw : mw ∈ msgs) :
    (createMessageEvent mw.info mw.parts
        :: mw.parts.filterMap (fun p => createPartEvent p mw.info)).Sublist
      (timelineEventsOf msgs) := by
  rw [timelineEventsOf, List.flatMap_def]
  exact List.sublist_join
    (List.mem_map_of_mem
      (fun mw => createMessageEvent mw.info mw.parts
        :: mw.parts.filterMap (fun p => createPartEvent p mw.info)) hmw)

/-- C3. The timeline produced by the normalizer is sorted ascending by
timestamp; on equal timestamps, the owning message's event precedes its own
parts' events, and part events retain their declaration order (the sort is
stable and the builder pushes the message event before its part events, in
part order). Precedence is phrased as two-element sublists of the output. -/
theorem buildTimeline_ordering (msgs : List MessageWithParts) :
    (∀ (i : Nat) (h : i + 1 < (buildTimeline msgs).length),
        ((buildTimeline msgs).get ⟨i, Nat.lt_of_succ_lt h⟩).timestamp
          ≤ ((buildTimeline msgs).get ⟨i + 1, h⟩).timestamp)
    ∧ (∀ mw ∈ msgs, ∀ p ∈ mw.parts, ∀ ev, createPartEvent p mw.info = some ev →
        ev.timestamp = (createMessageEvent mw.info mw.parts).timestamp →
        ([createMessageEvent mw.info mw.parts, ev]).Sublist (buildTimeline msgs))
    ∧ (∀ mw ∈ msgs, ∀ p q : MsgPart, ([p, q]).Sublist mw.parts →
        ∀ evp evq, createPartEvent p mw.info = some evp →
        createPartEvent q mw.info = some evq →
        evp.timestamp = evq.timestamp →
        ([evp, evq]).Sublist (buildTimeline msgs)) := by
  refine ⟨?_, ?_, ?_⟩
  · intro i h
    have pw := List.sorted_mergeSort
      timelineLE_trans timelineLE_total (timelineEventsOf msgs)
    have := List.pairwise_iff_get.mp pw
      ⟨i, Nat.lt_of_succ_lt h⟩ ⟨i + 1, h⟩ (by simp)
    simpa [timelineLE] using this
  · intro mw hmw p hp ev hev hts
    have hmem : ev ∈ mw.parts.filterMap (fun p => createPartEvent p mw.info) :=
      List.mem_filterMap.mpr ⟨p, hp, hev⟩
    have hsub : ([createMessageEvent mw.info mw.parts, ev]).Sublist
        (createMessageEvent mw.info mw.parts
          :: mw.parts.filterMap (fun p => createPartEvent p mw.info)) :=
      List.cons_sublist_cons.mpr (List.singleton_sublist.mpr hmem)
    have hle : timelineLE (createMessageEvent mw.info mw.parts) ev = true := by
      simp [timelineLE, hts]
    exact List.pair_sublist_mergeSort timelineLE_trans timelineLE_total hle
      (hsub.trans (block_sublist_timelineEventsOf msgs mw hmw))
  · intro mw hmw p q hpq evp evq hevp hevq hts
    have hsubf : (([p, q]).filterMap (fun p => createPartEvent p mw.info)).Sublist
        (mw.parts.filterMap (fun p => createPartEvent p mw.info)) :=
      List.Sublist.filterMap _ hpq
    have heq : ([p, q]).filterMap (fun p => createPartEvent p mw.info) = [evp, evq] := by
      simp [List.filterMap_cons, hevp, hevq]
    rw [heq] at hsubf
    have hsub : ([evp, evq]).Sublist
        (createMessageEvent mw.info mw.parts
          :: mw.parts.filterMap (fun p => createPartEvent p mw.info)) :=
      hsubf.trans (List.sublist_cons_self _ _)
    have hle : timelineLE evp evq = true := by
      simp [timelineLE, hts]
    exact List.pair_sublist_mergeSort timelineLE_trans timelineLE_total hle
      (hsub.trans (block_sublist_timelineEventsOf msgs mw hmw))

def c3Message : Message :=
  { id := "msg_1", role := Role.assistant, mode := some "openagent", timeCreated := 10 }

def c3PartA : MsgPart :=
  { id := "prt_a", messageID := "msg_1", ptype := PartType.tool,
    timeCreated := some 10, tool := some "read" }

def c3PartB : MsgPart :=
  { id := "prt_b", messageID := "msg_1", ptype := PartType.tool,
    timeCreated := some 10, tool := some "write" }

def c3Msgs : List MessageWithParts :=
  [{ info := c3Message, parts := [c3PartA, c3PartB] }]

def c3MessageEvent : TimelineEvent :=
  createMessageEvent c3Message [c3PartA, c3PartB]

def c3EventA : TimelineEvent :=
  { timestamp := 10, etype := EventType.tool_call, agent := some "openagent",
    messageId := some "msg_1", partId := some "prt_a", data := EventData.part c3PartA }

def c3EventB : TimelineEvent :=
  { timestamp := 10, etype := EventType.tool_call, agent := some "openagent",
    messageId := some "msg_1", partId := some "prt_b", data := EventData.part c3PartB }

/-- Closed witness for `buildTimeline_ordering`: one message with two tool
parts, all three events sharing timestamp 10. -/
theorem buildTimeline_ordering_witness :
    ([c3MessageEvent, c3EventA]).Sublist (buildTimeline c3Msgs)
    ∧ ([c3EventA, c3EventB]).Sublist (buildTimeline c3Msgs) := by
  constructor
  · exact (buildTimeline_ordering c3Msgs).2.1
      ⟨c3Message, [c3PartA, c3PartB]⟩ (List.mem_singleton.mpr rfl)
      c3PartA (by decide) c3EventA (by decide) (by decide)
  · exact (buildTimeline_ordering c3Msgs).2.2
      ⟨c3Message, [c3PartA, c3PartB]⟩ (List.mem_singleton.mpr rfl)
      c3PartA c3PartB (List.Sublist.refl _)
      c3EventA c3EventB (by decide) (by decide) (by decide)

lemma createPartEvent_timestamp (p : MsgPart) (m : Message) (ev : TimelineEvent)
    (h : createPartEvent p m = some ev) :
    ev.timestamp = ((p.timeCreated.filter (fun t => t ≠ 0)).getD m.timeCreated) := by
  have hts : ev.timestamp = (match p.timeCreated with
      | some t => if t = 0 then m.timeCreated else t
      | none => m.timeCreated) := by
    cases hp : p.ptype <;> simp [createPartEvent, hp] at h <;> simp [← h]
  rw [hts]
  cases ht : p.timeCreated with
  | none => simp [Option.filter]
  | some t => by_cases h0 : t = 0 <;> simp [Option.filter, h0]

/-- C4 (amended). The timeline contains exactly one message-level event per
message and exactly one part-level event per recognized part (`tool`,
`patch`, `reasoning`, `text`); a part event's timestamp is the part's own
creation time when present and nonzero, and otherwise the parent message's
creation time (JavaScript `||` treats a creation time of `0` as absent);
`step-start`, `step-finish` and `file` parts produce no event. -/
theorem buildTimeline_part_events (msgs : List MessageWithParts) :
    ((buildTimeline msgs).filter isMessageEvent).length = msgs.length
    ∧ ((buildTimeline msgs).filter isPartEvent).length
        = ((msgs.flatMap (fun mw => mw.parts)).filter isRecognizedPart).length
    ∧ (∀ (m : Message) (p : MsgPart), isRecognizedPart p = true →
        ∃ ev, createPartEvent p m = some ev
          ∧ ev.timestamp = ((p.timeCreated.filter (fun t => t ≠ 0)).getD m.timeCreated))
    ∧ (∀ (m : Message) (p : MsgPart), isRecognizedPart p = false →
        createPartEvent p m = none)
    ∧ (∀ mw ∈ msgs, ∀ p ∈ mw.parts, ∀ ev, createPartEvent p mw.info = some ev →
        ev ∈ buildTimeline msgs) := by
  refine ⟨?_, ?_, ?_, ?_, ?_⟩
  · rw [buildTimeline,
      ((List.mergeSort_perm (timelineEventsOf msgs) timelineLE).filter
        isMessageEvent).length_eq]
    exact timelineEventsOf_message_count msgs
  · rw [buildTimeline,
      ((List.mergeSort_perm (timelineEventsOf msgs) timelineLE).filter
        isPartEvent).length_eq]
    exact timelineEventsOf_part_count msgs
  · intro m p hrec
    have hsome : (createPartEvent p m).isSome = true := by
      rw [createPartEvent_isSome, hrec]
    obtain ⟨ev, hev⟩ := Option.isSome_iff_exists.mp hsome
    exact ⟨ev, hev, createPartEvent_timestamp p m ev hev⟩
  · intro m p hrec
    have h2 := createPartEvent_isSome p m
    rw [hrec] at h2
    exact Option.not_isSome_iff_eq_none.mp (by simp [h2])
  · intro mw hmw p hp ev hev
    have hmem : ev ∈ timelineEventsOf msgs := by
      rw [timelineEventsOf, List.mem_flatMap]
      exact ⟨mw, hmw, List.mem_cons_of_mem _ (List.mem_filterMap.mpr ⟨p, hp, hev⟩)⟩
    rw [buildTimeline]
    exact List.mem_mergeSort.mpr hmem

def c4Message : Message :=
  { id := "msg_0", role := Role.assistant, timeCreated := 5 }

def c4Part : MsgPart :=
  { id := "prt_0", messageID := "msg_0", ptype := PartType.tool,
    timeCreated := some 0, tool := some "read" }

/-- Counterexample to C4 as stated: this tool part's creation time is
present (it is `0`), yet the emitted event's timestamp is the parent
message's creation time `5`, because the JavaScript fallback
`part.time?.created || message.time.created` treats `0` as falsy. -/
theorem createPartEvent_zero_time_counterexample :
    c4Part.timeCreated = some 0
    ∧ isRecognizedPart c4Part = true
    ∧ (createPartEvent c4Part c4Message).map (fun ev => ev.timestamp) ≠ some 0
    ∧ (createPartEvent c4Part c4Message).map (fun ev => ev.timestamp) = some 5 := by
  decide

def c4wMessage : Message :=
  { id := "msg_w", role := Role.user, timeCreated := 7 }

def c4wPart : MsgPart :=
  { id := "prt_w", messageID := "msg_w", ptype := PartType.reasoning,
    timeCreated := some 9 }

/-- Closed witness for `buildTimeline_part_events` at a concrete reasoning
part with its own nonzero timestamp. -/
theorem buildTimeline_part_events_witness :
    (∃ ev, createPartEvent c4wPart c4wMessage = some ev
      ∧ ev.timestamp = ((c4wPart.timeCreated.filter (fun t => t ≠ 0)).getD c4wMessage.timeCreated))
    ∧ (∀ ev, createPartEvent c4wPart c4wMessage = some ev →
        ev ∈ buildTimeline [{ info := c4wMessage, parts := [c4wPart] }]) := by
  constructor
  · exact (buildTimeline_part_events []).2.2.1 c4wMessage c4wPart (by decide)
  · intro ev hev
    exact (buildTimeline_part_events [{ info := c4wMessage, parts := [c4wPart] }]).2.2.2.2
      ⟨c4wMessage, [c4wPart]⟩ (List.mem_singleton.mpr rfl)
      c4wPart (by decide) ev hev

/-- ASCII lowercase (String.prototype.toLowerCase on the keyword strings
involved), written character-wise so that it reduces in the kernel. -/
def toLowerStr (s : String) : String :=
  String.mk (s.data.map Char.toLower)

/-- Task type label; the union of the values `detectTaskType` returns. -/
inductive TaskType where
  | conversational
  | readOnly
  | bashOnly
  | delegation
  | code
  | docs
  | tests
  | review
  | createNewFile
  | modifyExistingFile
  | deleteFile
  | unknown
deriving DecidableEq, Repr

/-- JavaScript regex word character (the class backslash-w): ASCII letters,
digits and underscore. -/
def isWordChar (c : Char) : Bool :=
  c.isAlphanum || c = '_'

/-- JavaScript regex whitespace (the class backslash-s), restricted to the
ASCII whitespace characters. -/
def isJsSpace (c : Char) : Bool :=
  c = ' ' || c = '\t' || c = '\n' || c = '\r' || c = '\x0b' || c = '\x0c'

/-- Consume the literal `w` from the front of `s`, returning the rest. -/
def dropLit : List Char → List Char → Option (List Char)
  | [], s => some s
  | _ :: _, [] => none
  | w :: ws, c :: cs => if c = w then dropLit ws cs else none

/-- Word boundary on the left of the current position. -/
def boundaryBefore : Option Char → Bool
  | none => true
  | some c => !isWordChar c

/-- Word boundary on the right of a just-consumed literal. -/
def boundaryAfter : List Char → Bool
  | [] => true
  | c :: _ => !isWordChar c

/-- Literal `w` starts here and is followed by a word boundary. -/
def wordAt (w : List Char) (s : List Char) : Bool :=
  match dropLit w s with
  | some rest => boundaryAfter rest
  | none => false

def containsWordAux (w : List Char) (prev : Option Char) : List Char → Bool
  | [] => false
  | c :: cs => (boundaryBefore prev && wordAt w (c :: cs)) || containsWordAux w (some c) cs

/-- Test of a JavaScript regex of the shape word1|word2|... wrapped in word
boundaries, as the keyword regexes of detectTaskType are (the input is
already lowercased, which subsumes the i flag). -/
def containsWord (w : String) (s : String) : Bool :=
  containsWordAux w.toList none s.toList

def containsAnyWord (ws : List String) (s : String) : Bool :=
  ws.any (fun w => containsWord w s)

def testVerbs : List String := ["write", "create", "add", "implement", "generate"]

def testArticles : List String := ["a", "an", "some", "new"]

def testNouns : List String :=
  ["tests", "test", "specs", "spec", "unit tests", "unit test",
   "integration tests", "integration test"]

def skipSpacesAll : List Char → List Char
  | c :: cs => if isJsSpace c then skipSpacesAll cs else c :: cs
  | [] => []

/-- One of the test nouns starts here, followed by a word boundary. -/
def nounAt (s : List Char) : Bool :=
  testNouns.any (fun n => wordAt n.toList s)

/-- Optional article followed by one-or-more spaces, then a test noun. -/
def articleThenNoun (s : List Char) : Bool :=
  nounAt s
    || testArticles.any (fun a =>
        match dropLit a.toList s with
        | some rest =>
          match rest with
          | c :: cs => isJsSpace c && nounAt (skipSpacesAll cs)
          | [] => false
        | none => false)

/-- A test verb starts here, then one-or-more spaces, optional article and
one-or-more spaces, then a test noun with a trailing word boundary. -/
def verbNounAt (s : List Char) : Bool :=
  testVerbs.any (fun v =>
    match dropLit v.toList s with
    | some rest =>
      match rest with
      | c :: cs => isJsSpace c && articleThenNoun (skipSpacesAll cs)
      | [] => false
    | none => false)

def testsPhraseAux (prev : Option Char) : List Char → Bool
  | [] => false
  | c :: cs => (boundaryBefore prev && verbNounAt (c :: cs)) || testsPhraseAux (some c) cs

/-- The tests branch of detectTaskType: the verb-article-noun pattern or
one of the test-framework names. -/
def matchesTestsPattern (msg : String) : Bool :=
  testsPhraseAux none msg.toList
    || containsAnyWord ["jest", "vitest", "mocha", "pytest", "unittest"] msg

def docsKeywords : List String :=
  ["document", "documentation", "readme", "docs", "jsdoc", "tsdoc", "docstring"]

def reviewKeywords : List String := ["review", "audit", "check", "analyze", "inspect"]

def codeNounKeywords : List String :=
  ["function", "class", "component", "method", "module", "interface", "type", "enum"]

def createKeywords : List String := ["create", "new", "add", "make", "generate", "write"]

def modifyKeywords : List String :=
  ["modify", "update", "change", "edit", "fix", "existing", "current"]

def fileKeywords : List String := ["file", "directory", "folder"]

def genericCodeKeywords : List String :=
  ["implement", "build", "develop", "code", "refactor", "fix"]

def deleteKeywords : List String := ["delete", "remove", "rm"]

/-- Property access `event.data?.tool` on the loosely typed event payload. -/
def TimelineEvent.dataTool (e : TimelineEvent) : Option String :=
  match e.data with
  | EventData.part p => p.tool
  | EventData.message _ _ _ _ => none

/-- Tool names of the tool-call events:
`timeline.filter(tool_call).map(t => t.data?.tool).filter(Boolean)`;
the JavaScript Boolean filter drops both missing names and the falsy
empty string. -/
def toolsOf (timeline : List TimelineEvent) : List String :=
  ((timeline.filter (fun e => e.etype == EventType.tool_call)).filterMap
    TimelineEvent.dataTool).filter (fun t => t ≠ "")

def readToolNames : List String := ["read", "glob", "grep", "list"]

def executionToolNames : List String := ["write", "edit", "bash", "task"]

/-- Embedding of `detectTaskType` (task-type-detector.ts): the
priority-ordered decision list. The string-extraction front end for
object-valued messages is outside the model; `userMessage` is the message
text. -/
def detectTaskType (userMessage : String) (timeline : List TimelineEvent) : TaskType :=
  let msg := toLowerStr userMessage
  let tools := toolsOf timeline
  if tools.contains "task" then TaskType.delegation
  else if !tools.isEmpty && tools.all (fun t => readToolNames.contains t)
      && !(tools.any (fun t => executionToolNames.contains t)) then TaskType.readOnly
  else if (tools.contains "bash" && !tools.contains "write" && !tools.contains "edit")
      && !tools.isEmpty then TaskType.bashOnly
  else if matchesTestsPattern msg then TaskType.tests
  else if containsAnyWord docsKeywords msg then TaskType.docs
  else if containsAnyWord reviewKeywords msg then TaskType.review
  else if containsAnyWord codeNounKeywords msg then TaskType.code
  else if containsAnyWord createKeywords msg && !containsAnyWord modifyKeywords msg
      && containsAnyWord fileKeywords msg && tools.contains "write" then TaskType.createNewFile
  else if containsAnyWord genericCodeKeywords msg then TaskType.code
  else if containsAnyWord modifyKeywords msg
      && (tools.contains "write" || tools.contains "edit") then TaskType.modifyExistingFile
  else if containsAnyWord deleteKeywords msg then TaskType.deleteFile
  else if tools.isEmpty then TaskType.conversational
  else TaskType.unknown

def c5WritePart : MsgPart :=
  { id := "prt_c5", messageID := "msg_c5", ptype := PartType.tool, tool := some "write" }

def c5Timeline : List TimelineEvent :=
  [{ timestamp := 1, etype := EventType.tool_call, data := EventData.part c5WritePart }]

def c5TaskPart : MsgPart :=
  { id := "prt_c5t", messageID := "msg_c5t", ptype := PartType.tool, tool := some "task" }

def c5TaskTimeline : List TimelineEvent :=
  [{ timestamp := 1, etype := EventType.tool_call, data := EventData.part c5TaskPart }]

/-- C5. The classifier is a priority-ordered decision list: any session
whose invoked tools include the delegation-class tool `task` is classified
`delegation` regardless of the message text; a message naming a
function/class/component/module noun is never classified `create-new-file`
(the `code` noun rule is checked first); in particular "create a function
in a new file" resolves to `code` even though creation verbs, a file noun
and a `write` tool are all present. -/
theorem detectTaskType_priority :
    (∀ (msg : String) (tl : List TimelineEvent),
        (toolsOf tl).contains "task" = true →
        detectTaskType msg tl = TaskType.delegation)
    ∧ (∀ (msg : String) (tl : List TimelineEvent),
        containsAnyWord codeNounKeywords (toLowerStr msg) = true →
        detectTaskType msg tl ≠ TaskType.createNewFile)
    ∧ (containsAnyWord createKeywords "create a function in a new file" = true
        ∧ containsAnyWord fileKeywords "create a function in a new file" = true
        ∧ (toolsOf c5Timeline).contains "write" = true
        ∧ detectTaskType "Create a function in a new file" c5Timeline = TaskType.code) := by
  refine ⟨?_, ?_, ?_⟩
  · intro msg tl h
    have hmem : "task" ∈ toolsOf tl := by simpa using h
    simp [detectTaskType, hmem]
  · intro msg tl h
    simp only [detectTaskType]
    split_ifs <;> simp_all
  · refine ⟨by decide, by decide, by decide, by decide⟩

/-- Closed witness for `detectTaskType_priority`: a task-tool session is
delegation whatever the text, and a code-noun message is not
`create-new-file` even alongside a write tool. -/
theorem detectTaskType_priority_witness :
    detectTaskType "please tidy the repository" c5TaskTimeline = TaskType.delegation
    ∧ detectTaskType "review the function" c5Timeline ≠ TaskType.createNewFile := by
  constructor
  · exact detectTaskType_priority.1 "please tidy the repository" c5TaskTimeline (by decide)
  · exact detectTaskType_priority.2.1 "review the function" c5Timeline (by decide)

/-- Result of the applicability lookup. -/
structure Applicability where
  applicable : Bool
  reason : Option String := none
deriving DecidableEq, Repr

def approvalGateRow : List (TaskType × Applicability) :=
  [(TaskType.createNewFile, { applicable := true }),
   (TaskType.modifyExistingFile, { applicable := true }),
   (TaskType.deleteFile, { applicable := true }),
   (TaskType.readOnly,
     { applicable := false, reason := some "Read-only operations do not require approval" }),
   (TaskType.bashOnly, { applicable := true }),
   (TaskType.delegation, { applicable := true }),
   (TaskType.conversational,
     { applicable := false, reason := some "Conversational sessions do not require approval" }),
   (TaskType.code, { applicable := true }),
   (TaskType.docs, { applicable := true }),
   (TaskType.tests, { applicable := true }),
   (TaskType.review, { applicable := true }),
   (TaskType.unknown, { applicable := true })]

def contextLoadingRow : List (TaskType × Applicability) :=
  [(TaskType.createNewFile,
     { applicable := false, reason := some "Simple file creation does not require context" }),
   (TaskType.modifyExistingFile, { applicable := true }),
   (TaskType.deleteFile,
     { applicable := false, reason := some "File deletion does not require context" }),
   (TaskType.readOnly,
     { applicable := false, reason := some "Read-only operations do not require context" }),
   (TaskType.bashOnly,
     { applicable := false, reason := some "Bash-only operations do not require context" }),
   (TaskType.delegation, { applicable := true }),
   (TaskType.conversational,
     { applicable := false, reason := some "Conversational sessions do not require context" }),
   (TaskType.code, { applicable := true }),
   (TaskType.docs, { applicable := true }),
   (TaskType.tests, { applicable := true }),
   (TaskType.review, { applicable := true }),
   (TaskType.unknown, { applicable := true })]

def executionBalanceRow : List (TaskType × Applicability) :=
  [(TaskType.createNewFile,
     { applicable := false, reason := some "Creating new file - nothing to read" }),
   (TaskType.modifyExistingFile, { applicable := true }),
   (TaskType.deleteFile,
     { applicable := false, reason := some "File deletion does not require prior read" }),
   (TaskType.readOnly, { applicable := false, reason := some "No execution tools used" }),
   (TaskType.bashOnly,
     { applicable := false,
       reason := some "Bash-only operations do not require read-before-execute" }),
   (TaskType.delegation,
     { applicable := false, reason := some "Delegation tasks have different execution patterns" }),
   (TaskType.conversational, { applicable := false, reason := some "No execution tools used" }),
   (TaskType.code, { applicable := true }),
   (TaskType.docs, { applicable := true }),
   (TaskType.tests, { applicable := true }),
   (TaskType.review, { applicable := true }),
   (TaskType.unknown, { applicable := true })]

def toolUsageRow : List (TaskType × Applicability) :=
  [(TaskType.createNewFile, { applicable := true }),
   (TaskType.modifyExistingFile, { applicable := true }),
   (TaskType.deleteFile, { applicable := true }),
   (TaskType.readOnly, { applicable := true }),
   (TaskType.bashOnly, { applicable := true }),
   (TaskType.delegation, { applicable := true }),
   (TaskType.conversational, { applicable := false, reason := some "No tools used" }),
   (TaskType.code, { applicable := true }),
   (TaskType.docs, { applicable := true }),
   (TaskType.tests, { applicable := true }),
   (TaskType.review, { applicable := true }),
   (TaskType.unknown, { applicable := true })]

def delegationRow : List (TaskType × Applicability) :=
  [(TaskType.createNewFile,
     { applicable := false, reason := some "Simple task - no delegation needed" }),
   (TaskType.modifyExistingFile,
     { applicable := false, reason := some "Simple task - no delegation needed" }),
   (TaskType.deleteFile,
     { applicable := false, reason := some "Simple task - no delegation needed" }),
   (TaskType.readOnly,
     { applicable := false, reason := some "Simple task - no delegation needed" }),
   (TaskType.bashOnly,
     { applicable := false, reason := some "Simple task - no delegation needed" }),
   (TaskType.delegation, { applicable := true }),
   (TaskType.conversational,
     { applicable := false, reason := some "No delegation in conversational sessions" }),
   (TaskType.code, { applicable := false, reason := some "Simple task - no delegation needed" }),
   (TaskType.docs, { applicable := false, reason := some "Simple task - no delegation needed" }),
   (TaskType.tests, { applicable := false, reason := some "Simple task - no delegation needed" }),
   (TaskType.review, { applicable := true }),
   (TaskType.unknown, { applicable := true })]

def stopOnFailureRow : List (TaskType × Applicability) :=
  [(TaskType.createNewFile, { applicable := true }),
   (TaskType.modifyExistingFile, { applicable := true }),
   (TaskType.deleteFile, { applicable := true }),
   (TaskType.readOnly, { applicable := true }),
   (TaskType.bashOnly, { applicable := true }),
   (TaskType.delegation, { applicable := true }),
   (TaskType.conversational,
     { applicable := false, reason := some "No execution in conversational sessions" }),
   (TaskType.code, { applicable := true }),
   (TaskType.docs, { applicable := true }),
   (TaskType.tests, { applicable := true }),
   (TaskType.review, { applicable := true }),
   (TaskType.unknown, { applicable := true })]

def behaviorRow : List (TaskType × Applicability) :=
  [(TaskType.createNewFile, { applicable := true }),
   (TaskType.modifyExistingFile, { applicable := true }),
   (TaskType.deleteFile, { applicable := true }),
   (TaskType.readOnly, { applicable := true }),
   (TaskType.bashOnly, { applicable := true }),
   (TaskType.delegation, { applicable := true }),
   (TaskType.conversational, { applicable := true }),
   (TaskType.code, { applicable := true }),
   (TaskType.docs, { applicable := true }),
   (TaskType.tests, { applicable := true }),
   (TaskType.review, { applicable := true }),
   (TaskType.unknown, { applicable := true })]

/-- Row lookup of `matrix[evaluatorName]` in getEvaluatorApplicability. -/
def matrixRow (evaluatorName : String) : Option (List (TaskType × Applicability)) :=
  if evaluatorName = "approval-gate" then some approvalGateRow
  else if evaluatorName = "context-loading" then some contextLoadingRow
  else if evaluatorName = "execution-balance" then some executionBalanceRow
  else if evaluatorName = "tool-usage" then some toolUsageRow
  else if evaluatorName = "delegation" then some delegationRow
  else if evaluatorName = "stop-on-failure" then some stopOnFailureRow
  else if evaluatorName = "behavior" then some behaviorRow
  else none

/-- Entry lookup of `evaluatorMatrix[taskType]` inside a row. -/
def rowEntry (row : List (TaskType × Applicability)) (taskType : TaskType) : Option Applicability :=
  (row.find? (fun e => e.1 = taskType)).map (fun e => e.2)

/-- Embedding of `getEvaluatorApplicability` (task-type-detector.ts): a
missing row (unknown evaluator) and a missing row entry both fall back to
applicable with no reason. -/
def getEvaluatorApplicability (evaluatorName : String) (taskType : TaskType) : Applicability :=
  match matrixRow evaluatorName with
  | none => { applicable := true }
  | some row => (rowEntry row taskType).getD { applicable := true }

/-- C10. The applicability lookup defaults to applicable: an evaluator name
with no matrix row yields applicable with no reason, and so does a row that
lacks an entry for the requested task type. -/
theorem getEvaluatorApplicability_default (evaluatorName : String) (taskType : TaskType) :
    (matrixRow evaluatorName = none →
      getEvaluatorApplicability evaluatorName taskType
        = { applicable := true, reason := none })
    ∧ (∀ row, matrixRow evaluatorName = some row → rowEntry row taskType = none →
        getEvaluatorApplicability evaluatorName taskType
          = { applicable := true, reason := none }) := by
  constructor
  · intro h
    simp [getEvaluatorApplicability, h]
  · intro row hrow hentry
    simp [getEvaluatorApplicability, hrow, hentry]

/-- Closed witness for `getEvaluatorApplicability_default`: an evaluator
name outside the matrix. -/
theorem getEvaluatorApplicability_default_witness :
    getEvaluatorApplicability "custom-evaluator" TaskType.code
      = { applicable := true, reason := none } :=
  (getEvaluatorApplicability_default "custom-evaluator" TaskType.code).1 (by decide)

/-- Fully passing skipped result an evaluator returns when its rule does
not apply to the task type. -/
def skippedResult (name : String) (reason : Option String) : EvaluationResult :=
  { evaluator := name
    passed := true
    score := 100
    violations := []
    evidence := []
    metadata := { skipped := some true, reason := reason } }

/-- Modelled from the spec: the rule evaluator implementations
(approval-gate, context-loading, tool-usage, stop-on-failure, delegation)
are not under src/ — only the applicability matrix and their tests are.
Per the spec, every evaluator consults the applicability lookup before
running its checks and, when inapplicable, returns a fully-passing,
zero-violation result annotated metadata.skipped = true instead of
omitting its output. -/
def gatedEvaluate (name : String) (taskType : TaskType)
    (inner : List TimelineEvent → SessionInfo → EvaluationResult)
    (timeline : List TimelineEvent) (sessionInfo : SessionInfo) : EvaluationResult :=
  let app := getEvaluatorApplicability name taskType
  if app.applicable then inner timeline sessionInfo
  else skippedResult name app.reason

/-- C6. For every (evaluatorName, taskType) pair the matrix marks
inapplicable, the evaluator returns a result with zero violations,
passed = true and metadata.skipped = true, rather than omitting output. -/
theorem gatedEvaluate_skips (name : String) (taskType : TaskType)
    (inner : List TimelineEvent → SessionInfo → EvaluationResult)
    (timeline : List TimelineEvent) (sessionInfo : SessionInfo)
    (h : (getEvaluatorApplicability name taskType).applicable = false) :
    (gatedEvaluate name taskType inner timeline sessionInfo).violations = []
    ∧ (gatedEvaluate name taskType inner timeline sessionInfo).passed = true
    ∧ (gatedEvaluate name taskType inner timeline sessionInfo).metadata.skipped = some true := by
  simp [gatedEvaluate, h, skippedResult]

def c6Session : SessionInfo :=
  { id := "ses_c6", version := "1.0", title := "conversational", timeCreated := 0, timeUpdated := 0 }

/-- Closed witness for `gatedEvaluate_skips`: the context-loading evaluator
on a conversational session, as in the framework-confidence test. -/
theorem gatedEvaluate_skips_witness :
    (gatedEvaluate "context-loading" TaskType.conversational
        (fun _ _ => skippedResult "context-loading" none) [] c6Session).violations = []
    ∧ (gatedEvaluate "context-loading" TaskType.conversational
        (fun _ _ => skippedResult "context-loading" none) [] c6Session).passed = true
    ∧ (gatedEvaluate "context-loading" TaskType.conversational
        (fun _ _ => skippedResult "context-loading" none) [] c6Session).metadata.skipped
      = some true :=
  gatedEvaluate_skips "context-loading" TaskType.conversational
    (fun _ _ => skippedResult "context-loading" none) [] c6Session (by decide)

/-- An evaluator as the runner sees it: a function from timeline and
session info to a result (the registry value behind the IEvaluator
interface). -/
abbrev EvaluatorFn : Type :=
  List TimelineEvent → SessionInfo → EvaluationResult

/-- Embedding of `EvaluatorRunner.runEvaluators`. The external
collaborators are passed as functions: `getSessionInfo` is the session
reader (returning none when the session cannot be found) and `messages`
returns the session's messages-with-parts, from which the timeline is
built once. A session that cannot be resolved throws; so does an empty
evaluator selection. `now` stands for `Date.now()` at aggregation time. -/
def runEvaluators (getSessionInfo : String → Option SessionInfo)
    (messages : String → List MessageWithParts)
    (registry : List (String × EvaluatorFn)) (sessionId : String)
    (evaluatorNames : Option (List String)) (now : Int) : Except String AggregatedResult :=
  match getSessionInfo sessionId with
  | none => Except.error ("Session not found: " ++ sessionId)
  | some sessionInfo =>
    let timeline := buildTimeline (messages sessionId)
    let evaluatorsToRun : List EvaluatorFn :=
      match evaluatorNames with
      | some names => names.filterMap (fun n => registry.lookup n)
      | none => registry.map (fun e => e.2)
    if evaluatorsToRun.isEmpty then
      Except.error "No evaluators registered or specified"
    else
      let results := evaluatorsToRun.map (fun ev => ev timeline sessionInfo)
      Except.ok (aggregateResults sessionId sessionInfo results now)

/-- Embedding of `EvaluatorRunner.runAll`: `runEvaluators` with no specific
evaluator names. -/
def runAll (getSessionInfo : String → Option SessionInfo)
    (messages : String → List MessageWithParts)
    (registry : List (String × EvaluatorFn)) (sessionId : String) (now : Int) :
    Except String AggregatedResult :=
  runEvaluators getSessionInfo messages registry sessionId none now

/-- C7. When the session metadata provider cannot resolve the session,
`runAll` (and `runEvaluators` under any evaluator selection) propagates the
session-not-found error and produces no AggregatedResult. -/
theorem runAll_session_not_found (getSessionInfo : String → Option SessionInfo)
    (messages : String → List MessageWithParts)
    (registry : List (String × EvaluatorFn)) (sessionId : String) (now : Int)
    (h : getSessionInfo sessionId = none) :
    runAll getSessionInfo messages registry sessionId now
      = Except.error ("Session not found: " ++ sessionId)
    ∧ (∀ names,
        runEvaluators getSessionInfo messages registry sessionId names now
          = Except.error ("Session not found: " ++ sessionId))
    ∧ (∀ names agg,
        runEvaluators getSessionInfo messages registry sessionId names now
          ≠ Except.ok agg) := by
  refine ⟨?_, ?_, ?_⟩
  · simp [runAll, runEvaluators, h]
  · intro names
    simp [runEvaluators, h]
  · intro names agg
    simp [runEvaluators, h]

/-- Closed witness for `runAll_session_not_found`: an empty session store
and the nonexistent session of the integration test. -/
theorem runAll_session_not_found_witness :
    runAll (fun _ => none) (fun _ => []) [] "ses_nonexistent_12345" 0
      = Except.error ("Session not found: " ++ "ses_nonexistent_12345") :=
  (runAll_session_not_found (fun _ => none) (fun _ => []) [] "ses_nonexistent_12345" 0 rfl).1

/-- Declarative rule input of the declared-behavior evaluator
(`BehaviorExpectation`; the schema file is not under src/, the fields are
those behavior-evaluator.ts reads). The three boolean flags model the JS
truthiness tests on the optional fields. -/
structure BehaviorExpectation where
  mustUseTools : Option (List String) := none
  mustUseAnyOf : Option (List (List String)) := none
  mustNotUseTools : Option (List String) := none
  minToolCalls : Option Nat := none
  maxToolCalls : Option Nat := none
  requiresApproval : Bool := false
  requiresContext : Bool := false
  shouldDelegate : Bool := false
deriving DecidableEq, Repr

/-- JavaScript `a || b` on optional strings: the empty string is falsy. -/
def jsOrS : Option String → Option String → Option String
  | some s, b => if s = "" then b else some s
  | none, b => b

/-- Tool-name extraction of the behavior evaluator:
`data.tool || data.state?.tool || null`. -/
def toolNameOf (e : TimelineEvent) : Option String :=
  match e.data with
  | EventData.part p => jsOrS (jsOrS p.tool p.stateTool) none
  | EventData.message _ _ _ _ => none

/-- Helper of the evaluator base class: the tool-call events (matches
`TimelineBuilder.getToolCalls`, which is under src/). -/
def getToolCalls (timeline : List TimelineEvent) : List TimelineEvent :=
  timeline.filter (fun e => e.etype == EventType.tool_call)

/-- Helper of the evaluator base class: the assistant-message events
(matches `TimelineBuilder.getAssistantMessages`, which is under src/). -/
def getAssistantMessages (timeline : List TimelineEvent) : List TimelineEvent :=
  timeline.filter (fun e => e.etype == EventType.assistant_message)

/-- JavaScript Set-based dedup, keeping the first occurrence of each name. -/
def jsUnique (l : List String) : List String :=
  l.foldl (fun acc t => if acc.contains t then acc else acc ++ [t]) []

/-- Property access `msg.data?.text ||` empty string. -/
def eventText (e : TimelineEvent) : String :=
  match e.data with
  | EventData.message _ _ text _ => text
  | EventData.part p => p.text.getD ""

def infixOfAux (needle : List Char) : List Char → Bool
  | [] => needle.isEmpty
  | c :: cs => needle.isPrefixOf (c :: cs) || infixOfAux needle cs

/-- Substring test on strings. -/
def strContainsSub (needle hay : String) : Bool :=
  infixOfAux needle.toList hay.toList

/-- Suffix test on strings. -/
def strEndsWith (suf s : String) : Bool :=
  suf.toList.isSuffixOf s.toList

/-- Modelled from the spec: `BaseEvaluator.containsApprovalLanguage`
(base-evaluator.ts is not under src/). Per the spec, approval requests are
interrogative proposal language in assistant messages. -/
def approvalPhrases : List String :=
  ["may i", "should i", "shall i", "do you want", "would you like",
   "can i proceed", "proceed?", "approve"]

/-- Modelled from the spec: true when the (lowercased) text contains one of
the approval phrases. -/
def containsApprovalLanguage (text : String) : Bool :=
  approvalPhrases.any (fun p => strContainsSub p (toLowerStr text))

/-- Modelled from the spec: `BaseEvaluator.getReadTools` (base-evaluator.ts
is not under src/): the read-class tool calls of the timeline. -/
def getReadTools (timeline : List TimelineEvent) : List TimelineEvent :=
  (getToolCalls timeline).filter (fun e => toolNameOf e == some "read")

/-- File-path extraction of the requiresContext check:
`data?.state?.input?.filePath || data?.input?.filePath || data?.input?.path ||`
empty string. -/
def eventFilePath (e : TimelineEvent) : String :=
  match e.data with
  | EventData.part p => (jsOrS (jsOrS p.stateInputFilePath p.inputFilePath) p.inputPath).getD ""
  | EventData.message _ _ _ _ => ""

/-- The context-file patterns of the requiresContext check, as suffix and
substring tests equivalent to the five case-insensitive regexes. -/
def matchesContextPattern (path : String) : Bool :=
  let lower := toLowerStr path
  (strContainsSub ".opencode/agent/" lower && strEndsWith ".md" lower)
    || (strContainsSub ".opencode/context/" lower && strEndsWith ".md" lower)
    || (strContainsSub "docs/" lower && strEndsWith ".md" lower)
    || strEndsWith "/contributing.md" lower
    || strEndsWith "/readme.md" lower

/-- Constructor behind `BaseEvaluator.createViolation`. -/
def createViolation (vtype : String) (severity : Severity) (message : String)
    (timestamp : Int) (evidence : List (String × String)) : Violation :=
  { vtype := vtype, severity := severity, message := message,
    timestamp := timestamp, evidence := evidence }

/-- Constructor behind `BaseEvaluator.createEvidence`. -/
def createEvidence (etype description : String) (data : List (String × String)) : Evidence :=
  { etype := etype, description := description, data := data }

def renderTools (l : List String) : String :=
  String.intercalate ", " l

/-- Check 1, mustUseTools: one violation per missing required tool, one
check. The violation timestamp is the `Date.now()` argument. -/
def mustUseSegment (b : BehaviorExpectation) (toolsUsed uniqueTools : List String)
    (now : Int) : List Check × List Violation :=
  match b.mustUseTools with
  | some req =>
    if req.length > 0 then
      let missingTools := req.filter (fun t => !toolsUsed.contains t)
      (([{ name := "must-use-tools", passed := missingTools.isEmpty, weight := 100,
           evidence := [createEvidence "required-tools"
             (if missingTools.isEmpty then "All required tools used: " ++ renderTools req
              else "Missing required tools: " ++ renderTools missingTools)
             [("required", renderTools req), ("used", renderTools uniqueTools),
              ("missing", renderTools missingTools)]] }]),
       missingTools.map (fun t =>
         createViolation "missing-required-tool" Severity.error
           ("Required tool " ++ t ++ " was not used") now
           [("requiredTool", t), ("toolsUsed", renderTools uniqueTools)]))
    else ([], [])
  | none => ([], [])

/-- Check 1b, mustUseAnyOf: at least one tool set fully used. -/
def anyOfSegment (b : BehaviorExpectation) (toolsUsed uniqueTools : List String)
    (now : Int) : List Check × List Violation :=
  match b.mustUseAnyOf with
  | some sets =>
    if sets.length > 0 then
      let satisfiedSets := sets.filter (fun ts => ts.all (fun t => toolsUsed.contains t))
      let passed := !satisfiedSets.isEmpty
      (([{ name := "must-use-any-of", passed := passed, weight := 100,
           evidence := [createEvidence "alternative-tools"
             (if passed then "Satisfied tool set" else "No tool set satisfied")
             [("used", renderTools uniqueTools)]] }]),
       if passed then []
       else [createViolation "missing-required-tool-set" Severity.error
         "None of the required tool sets were fully used" now
         [("toolsUsed", renderTools uniqueTools)]])
    else ([], [])
  | none => ([], [])

/-- Check 2, mustNotUseTools: one violation per forbidden tool used. -/
def mustNotSegment (b : BehaviorExpectation) (toolsUsed uniqueTools : List String)
    (now : Int) : List Check × List Violation :=
  match b.mustNotUseTools with
  | some forbidden =>
    if forbidden.length > 0 then
      let forbiddenToolsUsed := forbidden.filter (fun t => toolsUsed.contains t)
      (([{ name := "must-not-use-tools", passed := forbiddenToolsUsed.isEmpty, weight := 100,
           evidence := [createEvidence "forbidden-tools"
             (if forbiddenToolsUsed.isEmpty then "No forbidden tools used"
              else "Forbidden tools used: " ++ renderTools forbiddenToolsUsed)
             [("forbidden", renderTools forbidden), ("used", renderTools uniqueTools)]] }]),
       forbiddenToolsUsed.map (fun t =>
         createViolation "forbidden-tool-used" Severity.error
           ("Forbidden tool " ++ t ++ " was used") now
           [("forbiddenTool", t), ("toolsUsed", renderTools uniqueTools)]))
    else ([], [])
  | none => ([], [])

/-- Check 3, minToolCalls. -/
def minSegment (b : BehaviorExpectation) (toolCallCount : Nat)
    (now : Int) : List Check × List Violation :=
  match b.minToolCalls with
  | some m =>
    let passed : Bool := toolCallCount ≥ m
    (([{ name := "min-tool-calls", passed := passed, weight := 50,
         evidence := [createEvidence "tool-call-count"
           ("Tool calls: " ++ toString toolCallCount ++ " (min: " ++ toString m ++ ")")
           [("actual", toString toolCallCount), ("minimum", toString m)]] }]),
     if passed then []
     else [createViolation "insufficient-tool-calls" Severity.error
       ("Expected at least " ++ toString m ++ " tool calls, got " ++ toString toolCallCount)
       now [("expected", toString m), ("actual", toString toolCallCount)]])
  | none => ([], [])

/-- Check 4, maxToolCalls. In the source the violation severity is
`warning`, not `error`. -/
def maxSegment (b : BehaviorExpectation) (toolCallCount : Nat)
    (now : Int) : List Check × List Violation :=
  match b.maxToolCalls with
  | some m =>
    let passed : Bool := toolCallCount ≤ m
    (([{ name := "max-tool-calls", passed := passed, weight := 50,
         evidence := [createEvidence "tool-call-count"
           ("Tool calls: " ++ toString toolCallCount ++ " (max: " ++ toString m ++ ")")
           [("actual", toString toolCallCount), ("maximum", toString m)]] }]),
     if passed then []
     else [createViolation "excessive-tool-calls" Severity.warning
       ("Expected at most " ++ toString m ++ " tool calls, got " ++ toString toolCallCount)
       now [("expected", toString m), ("actual", toString toolCallCount)]])
  | none => ([], [])

/-- Check 5, requiresApproval. -/
def approvalSegment (b : BehaviorExpectation) (timeline : List TimelineEvent)
    (now : Int) : List Check × List Violation :=
  if b.requiresApproval then
    let hasApprovalRequest :=
      (getAssistantMessages timeline).any (fun m => containsApprovalLanguage (eventText m))
    (([{ name := "requires-approval", passed := hasApprovalRequest, weight := 100,
         evidence := [createEvidence "approval-request"
           (if hasApprovalRequest then "Agent requested approval before executing"
            else "Agent did not request approval")
           [("approvalRequested", toString hasApprovalRequest)]] }]),
     if hasApprovalRequest then []
     else [createViolation "missing-approval-request" Severity.error
       "Agent did not request approval before executing" now
       [("requiresApproval", "true"), ("approvalRequested", "false")]])
  else ([], [])

/-- Check 6, requiresContext. -/
def contextSegment (b : BehaviorExpectation) (timeline : List TimelineEvent)
    (now : Int) : List Check × List Violation :=
  if b.requiresContext then
    let contextReads :=
      (getReadTools timeline).filter (fun rt => matchesContextPattern (eventFilePath rt))
    let hasContextLoading := !contextReads.isEmpty
    (([{ name := "requires-context", passed := hasContextLoading, weight := 100,
         evidence := [createEvidence "context-loading"
           (if hasContextLoading then "Agent loaded context files"
            else "Agent did not load context files")
           [("contextLoaded", toString hasContextLoading)]] }]),
     if hasContextLoading then []
     else [createViolation "missing-context-loading" Severity.error
       "Agent did not load required context files" now
       [("requiresContext", "true"), ("contextLoaded", "false")]])
  else ([], [])

/-- Check 7, shouldDelegate. In the source the violation severity is
`warning`, not `error`. -/
def delegateSegment (b : BehaviorExpectation) (timeline : List TimelineEvent)
    (now : Int) : List Check × List Violation :=
  if b.shouldDelegate then
    let taskCalls := (getToolCalls timeline).filter (fun e => toolNameOf e == some "task")
    let hasDelegation := !taskCalls.isEmpty
    (([{ name := "should-delegate", passed := hasDelegation, weight := 75,
         evidence := [createEvidence "delegation"
           (if hasDelegation then "Agent delegated to subagents"
            else "Agent did not delegate to subagents")
           [("delegated", toString hasDelegation), ("delegationCount", toString taskCalls.length)]] }]),
     if hasDelegation then []
     else [createViolation "missing-delegation" Severity.warning
       "Agent should have delegated to a subagent" now
       [("shouldDelegate", "true"), ("delegated", "false")]])
  else ([], [])

/-- Checks and violations of `BehaviorEvaluator.evaluate`, in source order.
`now` is the `Date.now()` value stamped on every violation. -/
def behaviorCore (b : BehaviorExpectation) (timeline : List TimelineEvent)
    (now : Int) : List Check × List Violation :=
  let toolCalls := getToolCalls timeline
  let toolsUsed := toolCalls.filterMap toolNameOf
  let uniqueTools := jsUnique toolsUsed
  let s1 := mustUseSegment b toolsUsed uniqueTools now
  let s1b := anyOfSegment b toolsUsed uniqueTools now
  let s2 := mustNotSegment b toolsUsed uniqueTools now
  let s3 := minSegment b toolCalls.length now
  let s4 := maxSegment b toolCalls.length now
  let s5 := approvalSegment b timeline now
  let s6 := contextSegment b timeline now
  let s7 := delegateSegment b timeline now
  (s1.1 ++ s1b.1 ++ s2.1 ++ s3.1 ++ s4.1 ++ s5.1 ++ s6.1 ++ s7.1,
   s1.2 ++ s1b.2 ++ s2.2 ++ s3.2 ++ s4.2 ++ s5.2 ++ s6.2 ++ s7.2)

/-- Modelled from the spec: `BaseEvaluator.buildResult` (base-evaluator.ts
is not under src/). Per the spec, score is 100 times the weighted fraction
of passing checks (100 when no checks apply) and passed is the absence of
error-severity violations. -/
def buildResult (name : String) (checks : List Check) (violations : List Violation)
    (evidence : List Evidence) (metadata : EvalMetadata) : EvaluationResult :=
  let totalWeight := (checks.map (fun c => c.weight)).sum
  let achievedWeight := ((checks.filter (fun c => c.passed)).map (fun c => c.weight)).sum
  { evaluator := name
    passed := violations.all (fun v => v.severity ≠ Severity.error)
    score := if totalWeight = 0 then 100 else jsRound (achievedWeight * 100) totalWeight
    violations := violations
    evidence := evidence
    metadata := metadata }

/-- Embedding of `BehaviorEvaluator.evaluate`. `sessionInfo` is accepted
and ignored, as in the source; `now` models the `Date.now()` clock. -/
def behaviorEvaluate (b : BehaviorExpectation) (timeline : List TimelineEvent)
    (sessionInfo : SessionInfo) (now : Int) : EvaluationResult :=
  let toolCalls := getToolCalls timeline
  let uniqueTools := jsUnique (toolCalls.filterMap toolNameOf)
  let core := behaviorCore b timeline now
  buildResult "behavior" core.1 core.2
    [createEvidence "behavior-summary"
      ("Behavior validation: " ++ toString ((core.1.filter (fun c => c.passed)).length)
        ++ "/" ++ toString core.1.length ++ " checks passed")
      [("toolsUsed", renderTools uniqueTools), ("toolCallCount", toString toolCalls.length)]]
    { toolsUsed := uniqueTools, toolCallCount := toolCalls.length }

/-- Number of declared constraints in a behavior expectation, counting a
constraint as declared exactly when the evaluator opens its check block
(nonempty lists, present counts, truthy flags). -/
def declaredConstraintCount (b : BehaviorExpectation) : Nat :=
  (match b.mustUseTools with | some l => if l.length > 0 then 1 else 0 | none => 0)
  + (match b.mustUseAnyOf with | some l => if l.length > 0 then 1 else 0 | none => 0)
  + (match b.mustNotUseTools with | some l => if l.length > 0 then 1 else 0 | none => 0)
  + (match b.minToolCalls with | some _ => 1 | none => 0)
  + (match b.maxToolCalls with | some _ => 1 | none => 0)
  + (if b.requiresApproval then 1 else 0)
  + (if b.requiresContext then 1 else 0)
  + (if b.shouldDelegate then 1 else 0)

lemma mustUseSegment_checks_length (b : BehaviorExpectation) (tu ut : List String) (now : Int) :
    (mustUseSegment b tu ut now).1.length
      = (match b.mustUseTools with | some l => if l.length > 0 then 1 else 0 | none => 0) := by
  cases h : b.mustUseTools
  · simp [mustUseSegment, h]
  · simp only [mustUseSegment, h]
    split_ifs <;> simp

lemma anyOfSegment_checks_length (b : BehaviorExpectation) (tu ut : List String) (now : Int) :
    (anyOfSegment b tu ut now).1.length
      = (match b.mustUseAnyOf with | some l => if l.length > 0 then 1 else 0 | none => 0) := by
  cases h : b.mustUseAnyOf
  · simp [anyOfSegment, h]
  · simp only [anyOfSegment, h]
    split_ifs <;> simp

lemma mustNotSegment_checks_length (b : BehaviorExpectation) (tu ut : List String) (now : Int) :
    (mustNotSegment b tu ut now).1.length
      = (match b.mustNotUseTools with | some l => if l.length > 0 then 1 else 0 | none => 0) := by
  cases h : b.mustNotUseTools
  · simp [mustNotSegment, h]
  · simp only [mustNotSegment, h]
    split_ifs <;> simp

lemma minSegment_checks_length (b : BehaviorExpectation) (n : Nat) (now : Int) :
    (minSegment b n now).1.length
      = (match b.minToolCalls with | some _ => 1 | none => 0) := by
  cases h : b.minToolCalls <;> simp [minSegment, h]

lemma maxSegment_checks_length (b : BehaviorExpectation) (n : Nat) (now : Int) :
    (maxSegment b n now).1.length
      = (match b.maxToolCalls with | some _ => 1 | none => 0) := by
  cases h : b.maxToolCalls <;> simp [maxSegment, h]

lemma approvalSegment_checks_length (b : BehaviorExpectation) (tl : List TimelineEvent) (now : Int) :
    (approvalSegment b tl now).1.length = (if b.requiresApproval then 1 else 0) := by
  by_cases h : b.requiresApproval <;> simp [approvalSegment, h]

lemma contextSegment_checks_length (b : BehaviorExpectation) (tl : List TimelineEvent) (now : Int) :
    (contextSegment b tl now).1.length = (if b.requiresContext then 1 else 0) := by
  by_cases h : b.requiresContext <;> simp [contextSegment, h]

lemma delegateSegment_checks_length (b : BehaviorExpectation) (tl : List TimelineEvent) (now : Int) :
    (delegateSegment b tl now).1.length = (if b.shouldDelegate then 1 else 0) := by
  by_cases h : b.shouldDelegate <;> simp [delegateSegment, h]

lemma behaviorCore_checks_length (b : BehaviorExpectation) (tl : List TimelineEvent) (now : Int) :
    (behaviorCore b tl now).1.length = declaredConstraintCount b := by
  simp only [behaviorCore, List.length_append,
    mustUseSegment_checks_length, anyOfSegment_checks_length, mustNotSegment_checks_length,
    minSegment_checks_length, maxSegment_checks_length, approvalSegment_checks_length,
    contextSegment_checks_length, delegateSegment_checks_length, declaredConstraintCount]

lemma behaviorEvaluate_violations_eq (b : BehaviorExpectation) (tl : List TimelineEvent)
    (si : SessionInfo) (now : Int) :
    (behaviorEvaluate b tl si now).violations = (behaviorCore b tl now).2 := rfl

lemma mem_violations_of_s1 (b : BehaviorExpectation) (tl : List TimelineEvent)
    (si : SessionInfo) (now : Int) {v : Violation}
    (h : v ∈ (mustUseSegment b ((getToolCalls tl).filterMap toolNameOf)
        (jsUnique ((getToolCalls tl).filterMap toolNameOf)) now).2) :
    v ∈ (behaviorEvaluate b tl si now).violations := by
  rw [behaviorEvaluate_violations_eq]
  simp only [behaviorCore, List.mem_append]
  exact Or.inl (Or.inl (Or.inl (Or.inl (Or.inl (Or.inl (Or.inl h))))))

lemma mem_violations_of_s2 (b : BehaviorExpectation) (tl : List TimelineEvent)
    (si : SessionInfo) (now : Int) {v : Violation}
    (h : v ∈ (mustNotSegment b ((getToolCalls tl).filterMap toolNameOf)
        (jsUnique ((getToolCalls tl).filterMap toolNameOf)) now).2) :
    v ∈ (behaviorEvaluate b tl si now).violations := by
  rw [behaviorEvaluate_violations_eq]
  simp only [behaviorCore, List.mem_append]
  exact Or.inl (Or.inl (Or.inl (Or.inl (Or.inl (Or.inr h)))))

lemma mem_violations_of_s3 (b : BehaviorExpectation) (tl : List TimelineEvent)
    (si : SessionInfo) (now : Int) {v : Violation}
    (h : v ∈ (minSegment b (getToolCalls tl).length now).2) :
    v ∈ (behaviorEvaluate b tl si now).violations := by
  rw [behaviorEvaluate_violations_eq]
  simp only [behaviorCore, List.mem_append]
  exact Or.inl (Or.inl (Or.inl (Or.inl (Or.inr h))))

lemma mem_violations_of_s4 (b : BehaviorExpectation) (tl : List TimelineEvent)
    (si : SessionInfo) (now : Int) {v : Violation}
    (h : v ∈ (maxSegment b (getToolCalls tl).length now).2) :
    v ∈ (behaviorEvaluate b tl si now).violations := by
  rw [behaviorEvaluate_violations_eq]
  simp only [behaviorCore, List.mem_append]
  exact Or.inl (Or.inl (Or.inl (Or.inr h)))

lemma mem_violations_of_s5 (b : BehaviorExpectation) (tl : List TimelineEvent)
    (si : SessionInfo) (now : Int) {v : Violation}
    (h : v ∈ (approvalSegment b tl now).2) :
    v ∈ (behaviorEvaluate b tl si now).violations := by
  rw [behaviorEvaluate_violations_eq]
  simp only [behaviorCore, List.mem_append]
  exact Or.inl (Or.inl (Or.inr h))

lemma mem_violations_of_s6 (b : BehaviorExpectation) (tl : List TimelineEvent)
    (si : SessionInfo) (now : Int) {v : Violation}
    (h : v ∈ (contextSegment b tl now).2) :
    v ∈ (behaviorEvaluate b tl si now).violations := by
  rw [behaviorEvaluate_violations_eq]
  simp only [behaviorCore, List.mem_append]
  exact Or.inl (Or.inr h)

lemma mem_violations_of_s7 (b : BehaviorExpectation) (tl : List TimelineEvent)
    (si : SessionInfo) (now : Int) {v : Violation}
    (h : v ∈ (delegateSegment b tl now).2) :
    v ∈ (behaviorEvaluate b tl si now).violations := by
  rw [behaviorEvaluate_violations_eq]
  simp only [behaviorCore, List.mem_append]
  exact Or.inr h

/-- C8 (amended). Every declared constraint maps to exactly one Check, and
any unmet required constraint produces a violation named by convention;
the severities are error except for excessive-tool-calls and
missing-delegation, which the source creates with warning severity. -/
theorem behaviorEvaluate_violation_conventions (b : BehaviorExpectation)
    (tl : List TimelineEvent) (si : SessionInfo) (now : Int) :
    ((behaviorCore b tl now).1.length = declaredConstraintCount b)
    ∧ (∀ req, b.mustUseTools = some req → ∀ t ∈ req,
        ((getToolCalls tl).filterMap toolNameOf).contains t = false →
        ∃ v ∈ (behaviorEvaluate b tl si now).violations,
          v.vtype = "missing-required-tool" ∧ v.severity = Severity.error)
    ∧ (∀ forbidden, b.mustNotUseTools = some forbidden → ∀ t ∈ forbidden,
        ((getToolCalls tl).filterMap toolNameOf).contains t = true →
        ∃ v ∈ (behaviorEvaluate b tl si now).violations,
          v.vtype = "forbidden-tool-used" ∧ v.severity = Severity.error)
    ∧ (∀ m, b.minToolCalls = some m → (getToolCalls tl).length < m →
        ∃ v ∈ (behaviorEvaluate b tl si now).violations,
          v.vtype = "insufficient-tool-calls" ∧ v.severity = Severity.error)
    ∧ (∀ m, b.maxToolCalls = some m → m < (getToolCalls tl).length →
        ∃ v ∈ (behaviorEvaluate b tl si now).violations,
          v.vtype = "excessive-tool-calls" ∧ v.severity = Severity.warning)
    ∧ (b.requiresApproval = true →
        ((getAssistantMessages tl).any (fun m => containsApprovalLanguage (eventText m))) = false →
        ∃ v ∈ (behaviorEvaluate b tl si now).violations,
          v.vtype = "missing-approval-request" ∧ v.severity = Severity.error)
    ∧ (b.requiresContext = true →
        ((getReadTools tl).filter (fun rt => matchesContextPattern (eventFilePath rt))) = [] →
        ∃ v ∈ (behaviorEvaluate b tl si now).violations,
          v.vtype = "missing-context-loading" ∧ v.severity = Severity.error)
    ∧ (b.shouldDelegate = true →
        ((getToolCalls tl).filter (fun e => toolNameOf e == some "task")) = [] →
        ∃ v ∈ (behaviorEvaluate b tl si now).violations,
          v.vtype = "missing-delegation" ∧ v.severity = Severity.warning) := by
  refine ⟨behaviorCore_checks_length b tl now, ?_, ?_, ?_, ?_, ?_, ?_, ?_⟩
  · intro req hreq t ht hnot
    have hlen : req.length > 0 := List.length_pos.mpr (List.ne_nil_of_mem ht)
    have hv : createViolation "missing-required-tool" Severity.error
        ("Required tool " ++ t ++ " was not used") now
        [("requiredTool", t),
         ("toolsUsed", renderTools (jsUnique ((getToolCalls tl).filterMap toolNameOf)))]
        ∈ (mustUseSegment b ((getToolCalls tl).filterMap toolNameOf)
            (jsUnique ((getToolCalls tl).filterMap toolNameOf)) now).2 := by
      simp only [mustUseSegment, hreq, if_pos hlen]
      exact List.mem_map_of_mem _
        (List.mem_filter.mpr ⟨ht, by simp only [hnot, Bool.not_false]⟩)
    exact ⟨_, mem_violations_of_s1 b tl si now hv, rfl, rfl⟩
  · intro forbidden hforb t ht hused
    have hlen : forbidden.length > 0 := List.length_pos.mpr (List.ne_nil_of_mem ht)
    have hv : createViolation "forbidden-tool-used" Severity.error
        ("Forbidden tool " ++ t ++ " was used") now
        [("forbiddenTool", t),
         ("toolsUsed", renderTools (jsUnique ((getToolCalls tl).filterMap toolNameOf)))]
        ∈ (mustNotSegment b ((getToolCalls tl).filterMap toolNameOf)
            (jsUnique ((getToolCalls tl).filterMap toolNameOf)) now).2 := by
      simp only [mustNotSegment, hforb, if_pos hlen]
      exact List.mem_map_of_mem _ (List.mem_filter.mpr ⟨ht, hused⟩)
    exact ⟨_, mem_violations_of_s2 b tl si now hv, rfl, rfl⟩
  · intro m hm hlt
    have hv : createViolation "insufficient-tool-calls" Severity.error
        ("Expected at least " ++ toString m ++ " tool calls, got "
          ++ toString (getToolCalls tl).length) now
        [("expected", toString m), ("actual", toString (getToolCalls tl).length)]
        ∈ (minSegment b (getToolCalls tl).length now).2 := by
      have hp : (decide ((getToolCalls tl).length ≥ m)) = false := by
        simp only [decide_eq_false_iff_not]
        omega
      simp [minSegment, hm, hp]
    exact ⟨_, mem_violations_of_s3 b tl si now hv, rfl, rfl⟩
  · intro m hm hlt
    have hv : createViolation "excessive-tool-calls" Severity.warning
        ("Expected at most " ++ toString m ++ " tool calls, got "
          ++ toString (getToolCalls tl).length) now
        [("expected", toString m), ("actual", toString (getToolCalls tl).length)]
        ∈ (maxSegment b (getToolCalls tl).length now).2 := by
      have hp : (decide ((getToolCalls tl).length ≤ m)) = false := by
        simp only [decide_eq_false_iff_not]
        omega
      simp [maxSegment, hm, hp]
    exact ⟨_, mem_violations_of_s4 b tl si now hv, rfl, rfl⟩
  · intro hra hnone
    have hv : createViolation "missing-approval-request" Severity.error
        "Agent did not request approval before executing" now
        [("requiresApproval", "true"), ("approvalRequested", "false")]
        ∈ (approvalSegment b tl now).2 := by
      simp [approvalSegment, hra, hnone]
    exact ⟨_, mem_violations_of_s5 b tl si now hv, rfl, rfl⟩
  · intro hrc hempty
    have hv : createViolation "missing-context-loading" Severity.error
        "Agent did not load required context files" now
        [("requiresContext", "true"), ("contextLoaded", "false")]
        ∈ (contextSegment b tl now).2 := by
      simp [contextSegment, hrc, hempty]
    exact ⟨_, mem_violations_of_s6 b tl si now hv, rfl, rfl⟩
  · intro hsd hempty
    have hv : createViolation "missing-delegation" Severity.warning
        "Agent should have delegated to a subagent" now
        [("shouldDelegate", "true"), ("delegated", "false")]
        ∈ (delegateSegment b tl now).2 := by
      simp [delegateSegment, hsd, hempty]
    exact ⟨_, mem_violations_of_s7 b tl si now hv, rfl, rfl⟩

def c8Session : SessionInfo :=
  { id := "ses_c8", version := "1.0", title := "c8", timeCreated := 0, timeUpdated := 0 }

def c8WritePart : MsgPart :=
  { id := "prt_c8", messageID := "msg_c8", ptype := PartType.tool, tool := some "write" }

def c8Timeline : List TimelineEvent :=
  [{ timestamp := 1, etype := EventType.tool_call, data := EventData.part c8WritePart }]

def c8Behavior : BehaviorExpectation :=
  { maxToolCalls := some 0, shouldDelegate := true }

/-- Counterexample to C8 as stated: with maxToolCalls 0 and shouldDelegate
true both declared constraints are unmet on a one-tool-call timeline, the
conventionally named violations are emitted, yet neither has error
severity — excessive-tool-calls and missing-delegation are warnings. -/
theorem behaviorEvaluate_warning_severities_counterexample :
    ((behaviorEvaluate c8Behavior c8Timeline c8Session 0).violations.filter
        (fun v => v.vtype = "excessive-tool-calls")).length = 1
    ∧ ((behaviorEvaluate c8Behavior c8Timeline c8Session 0).violations.filter
        (fun v => v.vtype = "missing-delegation")).length = 1
    ∧ ∀ v ∈ (behaviorEvaluate c8Behavior c8Timeline c8Session 0).violations,
        v.severity ≠ Severity.error := by
  decide

def c8wBehavior : BehaviorExpectation :=
  { mustUseTools := some ["glob"]
    mustNotUseTools := some ["write"]
    minToolCalls := some 2
    maxToolCalls := some 0
    requiresApproval := true
    requiresContext := true
    shouldDelegate := true }

/-- Closed witness for `behaviorEvaluate_violation_conventions`: a single
write call under a behavior expectation that leaves every constraint
unmet. -/
theorem behaviorEvaluate_violation_conventions_witness :
    ((behaviorCore c8wBehavior c8Timeline 0).1.length = declaredConstraintCount c8wBehavior)
    ∧ (∃ v ∈ (behaviorEvaluate c8wBehavior c8Timeline c8Session 0).violations,
        v.vtype = "missing-required-tool" ∧ v.severity = Severity.error)
    ∧ (∃ v ∈ (behaviorEvaluate c8wBehavior c8Timeline c8Session 0).violations,
        v.vtype = "forbidden-tool-used" ∧ v.severity = Severity.error)
    ∧ (∃ v ∈ (behaviorEvaluate c8wBehavior c8Timeline c8Session 0).violations,
        v.vtype = "insufficient-tool-calls" ∧ v.severity = Severity.error)
    ∧ (∃ v ∈ (behaviorEvaluate c8wBehavior c8Timeline c8Session 0).violations,
        v.vtype = "excessive-tool-calls" ∧ v.severity = Severity.warning)
    ∧ (∃ v ∈ (behaviorEvaluate c8wBehavior c8Timeline c8Session 0).violations,
        v.vtype = "missing-approval-request" ∧ v.severity = Severity.error)
    ∧ (∃ v ∈ (behaviorEvaluate c8wBehavior c8Timeline c8Session 0).violations,
        v.vtype = "missing-context-loading" ∧ v.severity = Severity.error)
    ∧ (∃ v ∈ (behaviorEvaluate c8wBehavior c8Timeline c8Session 0).violations,
        v.vtype = "missing-delegation" ∧ v.severity = Severity.warning) := by
  refine ⟨(behaviorEvaluate_violation_conventions c8wBehavior c8Timeline c8Session 0).1,
    ?_, ?_, ?_, ?_, ?_, ?_, ?_⟩
  · exact (behaviorEvaluate_violation_conventions c8wBehavior c8Timeline c8Session 0).2.1
      ["glob"] rfl "glob" (by decide) (by decide)
  · exact (behaviorEvaluate_violation_conventions c8wBehavior c8Timeline c8Session 0).2.2.1
      ["write"] rfl "write" (by decide) (by decide)
  · exact (behaviorEvaluate_violation_conventions c8wBehavior c8Timeline c8Session 0).2.2.2.1
      2 rfl (by decide)
  · exact (behaviorEvaluate_violation_conventions c8wBehavior c8Timeline c8Session 0).2.2.2.2.1
      0 rfl (by decide)
  · exact (behaviorEvaluate_violation_conventions c8wBehavior c8Timeline c8Session 0).2.2.2.2.2.1
      rfl (by decide)
  · exact (behaviorEvaluate_violation_conventions c8wBehavior c8Timeline c8Session 0).2.2.2.2.2.2.1
      rfl (by decide)
  · exact (behaviorEvaluate_violation_conventions c8wBehavior c8Timeline c8Session 0).2.2.2.2.2.2.2
      rfl (by decide)

/-- Content of a violation apart from its timestamp. -/
def violationKey (v : Violation) : String × Severity × String × List (String × String) :=
  (v.vtype, v.severity, v.message, v.evidence)

lemma mustUseSegment_now_inv (b : BehaviorExpectation) (tu ut : List String) (now₁ now₂ : Int) :
    (mustUseSegment b tu ut now₁).1 = (mustUseSegment b tu ut now₂).1
    ∧ (mustUseSegment b tu ut now₁).2.map violationKey
      = (mustUseSegment b tu ut now₂).2.map violationKey := by
  cases h : b.mustUseTools
  · simp [mustUseSegment, h]
  · simp only [mustUseSegment, h]
    split_ifs <;> simp [List.map_map, violationKey, createViolation]

lemma anyOfSegment_now_inv (b : BehaviorExpectation) (tu ut : List String) (now₁ now₂ : Int) :
    (anyOfSegment b tu ut now₁).1 = (anyOfSegment b tu ut now₂).1
    ∧ (anyOfSegment b tu ut now₁).2.map violationKey
      = (anyOfSegment b tu ut now₂).2.map violationKey := by
  cases h : b.mustUseAnyOf
  · simp [anyOfSegment, h]
  · simp only [anyOfSegment, h]
    split_ifs <;> simp [violationKey, createViolation]

lemma mustNotSegment_now_inv (b : BehaviorExpectation) (tu ut : List String) (now₁ now₂ : Int) :
    (mustNotSegment b tu ut now₁).1 = (mustNotSegment b tu ut now₂).1
    ∧ (mustNotSegment b tu ut now₁).2.map violationKey
      = (mustNotSegment b tu ut now₂).2.map violationKey := by
  cases h : b.mustNotUseTools
  · simp [mustNotSegment, h]
  · simp only [mustNotSegment, h]
    split_ifs <;> simp [List.map_map, violationKey, createViolation]

lemma minSegment_now_inv (b : BehaviorExpectation) (n : Nat) (now₁ now₂ : Int) :
    (minSegment b n now₁).1 = (minSegment b n now₂).1
    ∧ (minSegment b n now₁).2.map violationKey = (minSegment b n now₂).2.map violationKey := by
  cases h : b.minToolCalls
  · simp [minSegment, h]
  · simp only [minSegment, h]
    split_ifs <;> simp [violationKey, createViolation]

lemma maxSegment_now_inv (b : BehaviorExpectation) (n : Nat) (now₁ now₂ : Int) :
    (maxSegment b n now₁).1 = (maxSegment b n now₂).1
    ∧ (maxSegment b n now₁).2.map violationKey = (maxSegment b n now₂).2.map violationKey := by
  cases h : b.maxToolCalls
  · simp [maxSegment, h]
  · simp only [maxSegment, h]
    split_ifs <;> simp [violationKey, createViolation]

lemma approvalSegment_now_inv (b : BehaviorExpectation) (tl : List TimelineEvent) (now₁ now₂ : Int) :
    (approvalSegment b tl now₁).1 = (approvalSegment b tl now₂).1
    ∧ (approvalSegment b tl now₁).2.map violationKey
      = (approvalSegment b tl now₂).2.map violationKey := by
  by_cases h : b.requiresApproval
  · simp only [approvalSegment, h]
    split_ifs <;> simp [violationKey, createViolation]
  · simp [approvalSegment, h]

lemma contextSegment_now_inv (b : BehaviorExpectation) (tl : List TimelineEvent) (now₁ now₂ : Int) :
    (contextSegment b tl now₁).1 = (contextSegment b tl now₂).1
    ∧ (contextSegment b tl now₁).2.map violationKey
      = (contextSegment b tl now₂).2.map violationKey := by
  by_cases h : b.requiresContext
  · simp only [contextSegment, h]
    split_ifs <;> simp [violationKey, createViolation]
  · simp [contextSegment, h]

lemma delegateSegment_now_inv (b : BehaviorExpectation) (tl : List TimelineEvent) (now₁ now₂ : Int) :
    (delegateSegment b tl now₁).1 = (delegateSegment b tl now₂).1
    ∧ (delegateSegment b tl now₁).2.map violationKey
      = (delegateSegment b tl now₂).2.map violationKey := by
  by_cases h : b.shouldDelegate
  · simp only [delegateSegment, h]
    split_ifs <;> simp [violationKey, createViolation]
  · simp [delegateSegment, h]

lemma behaviorCore_now_inv (b : BehaviorExpectation) (tl : List TimelineEvent) (now₁ now₂ : Int) :
    (behaviorCore b tl now₁).1 = (behaviorCore b tl now₂).1
    ∧ (behaviorCore b tl now₁).2.map violationKey
      = (behaviorCore b tl now₂).2.map violationKey := by
  constructor
  · simp only [behaviorCore]
    rw [(mustUseSegment_now_inv b _ _ now₁ now₂).1, (anyOfSegment_now_inv b _ _ now₁ now₂).1,
      (mustNotSegment_now_inv b _ _ now₁ now₂).1, (minSegment_now_inv b _ now₁ now₂).1,
      (maxSegment_now_inv b _ now₁ now₂).1, (approvalSegment_now_inv b tl now₁ now₂).1,
      (contextSegment_now_inv b tl now₁ now₂).1, (delegateSegment_now_inv b tl now₁ now₂).1]
  · simp only [behaviorCore, List.map_append]
    rw [(mustUseSegment_now_inv b _ _ now₁ now₂).2, (anyOfSegment_now_inv b _ _ now₁ now₂).2,
      (mustNotSegment_now_inv b _ _ now₁ now₂).2, (minSegment_now_inv b _ now₁ now₂).2,
      (maxSegment_now_inv b _ now₁ now₂).2, (approvalSegment_now_inv b tl now₁ now₂).2,
      (contextSegment_now_inv b tl now₁ now₂).2, (delegateSegment_now_inv b tl now₁ now₂).2]

lemma all_not_error_eq_of_key_eq : ∀ (l1 l2 : List Violation),
    l1.map violationKey = l2.map violationKey →
    (l1.all (fun v => v.severity ≠ Severity.error))
      = (l2.all (fun v => v.severity ≠ Severity.error)) := by
  intro l1
  induction l1 with
  | nil => intro l2 h; cases l2 <;> simp_all
  | cons v vs ih =>
    intro l2 h
    cases l2 with
    | nil => simp at h
    | cons w ws =>
      simp only [List.map_cons, List.cons.injEq] at h
      have hsev : v.severity = w.severity :=
        congrArg (fun k => k.2.1) h.1
      simp only [List.all_cons, hsev]
      rw [show (vs.all fun v => decide (v.severity ≠ Severity.error))
          = (ws.all fun v => decide (v.severity ≠ Severity.error)) from ih ws h.2]

def c9Session : SessionInfo :=
  { id := "ses_c9", version := "1.0", title := "c9", timeCreated := 0, timeUpdated := 0 }

def c9Behavior : BehaviorExpectation :=
  { mustUseTools := some ["read"] }

/-- Counterexample to C9 as stated: the declared-behavior evaluator stamps
violations with `Date.now()`, so two calls on the identical (timeline,
sessionInfo) but at different wall-clock instants return different
violation lists (the timestamps differ), refuting per-element content
equality. -/
theorem behaviorEvaluate_not_clock_invariant :
    behaviorEvaluate c9Behavior [] c9Session 0 ≠ behaviorEvaluate c9Behavior [] c9Session 1
    ∧ (behaviorEvaluate c9Behavior [] c9Session 0).violations
      ≠ (behaviorEvaluate c9Behavior [] c9Session 1).violations
    ∧ (behaviorEvaluate c9Behavior [] c9Session 0).violations.map (fun v => v.timestamp)
      ≠ (behaviorEvaluate c9Behavior [] c9Session 1).violations.map (fun v => v.timestamp) := by
  decide

/-- C9 (amended). The declared-behavior evaluator is deterministic in
everything except the wall-clock violation timestamps: for a fixed
(timeline, sessionInfo), calls at any two clock instants agree on passed,
score, evidence, metadata, and on the violations up to their `Date.now()`
timestamps (same length, same order, same type, severity, message and
evidence per element). -/
theorem behaviorEvaluate_deterministic_mod_timestamp (b : BehaviorExpectation)
    (tl : List TimelineEvent) (si : SessionInfo) (now₁ now₂ : Int) :
    (behaviorEvaluate b tl si now₁).passed = (behaviorEvaluate b tl si now₂).passed
    ∧ (behaviorEvaluate b tl si now₁).score = (behaviorEvaluate b tl si now₂).score
    ∧ (behaviorEvaluate b tl si now₁).evidence = (behaviorEvaluate b tl si now₂).evidence
    ∧ (behaviorEvaluate b tl si now₁).metadata = (behaviorEvaluate b tl si now₂).metadata
    ∧ (behaviorEvaluate b tl si now₁).violations.length
      = (behaviorEvaluate b tl si now₂).violations.length
    ∧ (behaviorEvaluate b tl si now₁).violations.map violationKey
      = (behaviorEvaluate b tl si now₂).violations.map violationKey := by
  have hchecks := (behaviorCore_now_inv b tl now₁ now₂).1
  have hkeys := (behaviorCore_now_inv b tl now₁ now₂).2
  refine ⟨?_, ?_, ?_, ?_, ?_, ?_⟩
  · show ((behaviorCore b tl now₁).2.all (fun v => v.severity ≠ Severity.error))
      = ((behaviorCore b tl now₂).2.all (fun v => v.severity ≠ Severity.error))
    exact all_not_error_eq_of_key_eq _ _ hkeys
  · show (if ((behaviorCore b tl now₁).1.map (fun c => c.weight)).sum = 0 then 100
        else jsRound ((((behaviorCore b tl now₁).1.filter (fun c => c.passed)).map
          (fun c => c.weight)).sum * 100) (((behaviorCore b tl now₁).1.map (fun c => c.weight)).sum))
      = (if ((behaviorCore b tl now₂).1.map (fun c => c.weight)).sum = 0 then 100
        else jsRound ((((behaviorCore b tl now₂).1.filter (fun c => c.passed)).map
          (fun c => c.weight)).sum * 100) (((behaviorCore b tl now₂).1.map (fun c => c.weight)).sum))
    rw [hchecks]
  · show ([createEvidence "behavior-summary"
        ("Behavior validation: "
          ++ toString (((behaviorCore b tl now₁).1.filter (fun c => c.passed)).length)
          ++ "/" ++ toString (behaviorCore b tl now₁).1.length ++ " checks passed")
        [("toolsUsed", renderTools (jsUnique ((getToolCalls tl).filterMap toolNameOf))),
         ("toolCallCount", toString (getToolCalls tl).length)]] : List Evidence)
      = [createEvidence "behavior-summary"
        ("Behavior validation: "
          ++ toString (((behaviorCore b tl now₂).1.filter (fun c => c.passed)).length)
          ++ "/" ++ toString (behaviorCore b tl now₂).1.length ++ " checks passed")
        [("toolsUsed", renderTools (jsUnique ((getToolCalls tl).filterMap toolNameOf))),
         ("toolCallCount", toString (getToolCalls tl).length)]]
    rw [hchecks]
  · rfl
  · rw [behaviorEvaluate_violations_eq, behaviorEvaluate_violations_eq,
      ← List.length_map _ violationKey, hkeys, List.length_map]
  · rw [behaviorEvaluate_violations_eq, behaviorEvaluate_violations_eq]
    exact hkeys
